import Mathlib

/-!
Shallow embedding of the GPU launch-configuration calculator from
`tensorflow/core/util/gpu_launch_config.h` (CUDA path).

C++ `int` values are modelled as `Int`; C++ integer division truncates
toward zero, which is `Int.tdiv`.  The device/driver capability queries and
the CUDA occupancy queries are external collaborators: they are modelled as
explicit inputs (`GpuDevice`, `DeviceProp`, `OccupancyResult`) to the
embedded functions, exactly the numbers the source reads off them.
A `CHECK_*` macro failure is fatal in the source; functions guarded by a
`CHECK_GT(work_element_count, 0)` are embedded as `Option`-valued, returning
`none` when the check would fire.
-/

namespace GpuLaunch

/-- `inline int DivUp(int a, int b) { return (a + b - 1) / b; }`
(gpu_launch_config.h line 108); C++ `/` truncates toward zero. -/
def DivUp (a b : Int) : Int := (a + b - 1).tdiv b

/-- `struct GpuLaunchConfig` (lines 110-119): all three fields default to -1. -/
structure GpuLaunchConfig where
  virtual_thread_count : Int := -1
  thread_per_block : Int := -1
  block_count : Int := -1
deriving Repr, DecidableEq

/-- The hardware-capability numbers the 1D/2D heuristics read from the
`Eigen::GpuDevice` collaborator: `getNumCudaMultiProcessors()`,
`maxCudaThreadsPerMultiProcessor()`, `maxCudaThreadsPerBlock()`. -/
structure GpuDevice where
  numMultiProcessors : Int
  maxThreadsPerMultiProcessor : Int
  maxThreadsPerBlock : Int
deriving Repr, DecidableEq

/-- The `(block_count, thread_per_block)` pair written by the
`cudaOccupancyMaxPotentialBlockSize` occupancy query (an external
collaborator), passed in as data. -/
structure OccupancyResult where
  block_count : Int
  thread_per_block : Int
deriving Repr, DecidableEq

/-- Heuristic 1D `GetGpuLaunchConfig(int work_element_count, d)`
(lines 125-153, CUDA branch).  `CHECK_GT(work_element_count, 0)` is fatal:
embedded as `none`. -/
def GetGpuLaunchConfig (work_element_count : Int) (d : GpuDevice) :
    Option GpuLaunchConfig :=
  if work_element_count ≤ 0 then none
  else
    let virtual_thread_count := work_element_count
    let physical_thread_count :=
      min (d.numMultiProcessors * d.maxThreadsPerMultiProcessor)
        virtual_thread_count
    let thread_per_block := min 1024 d.maxThreadsPerBlock
    let block_count :=
      min (DivUp physical_thread_count thread_per_block) d.numMultiProcessors
    some { virtual_thread_count := virtual_thread_count
           thread_per_block := thread_per_block
           block_count := block_count }

/-- Occupancy-aware 1D `GetGpuLaunchConfig(work_element_count, d, func,
dynamic_shared_memory_size, block_size_limit)` (lines 158-198, CUDA branch).
The `cudaOccupancyMaxPotentialBlockSize` result is the `occ` input; the only
arithmetic the function itself performs is the final downward clamp of the
block count. -/
def GetGpuLaunchConfigOcc (work_element_count : Int) (occ : OccupancyResult) :
    Option GpuLaunchConfig :=
  if work_element_count ≤ 0 then none
  else
    let thread_per_block := occ.thread_per_block
    let block_count :=
      min occ.block_count (DivUp work_element_count thread_per_block)
    some { virtual_thread_count := work_element_count
           thread_per_block := thread_per_block
           block_count := block_count }

/-- `GetGpuLaunchConfigFixedBlockSize` (lines 204-239, CUDA branch).
`occ_blocks_per_mp` is the per-multiprocessor active-block count written by
`cudaOccupancyMaxActiveBlocksPerMultiprocessor`. -/
def GetGpuLaunchConfigFixedBlockSize (work_element_count : Int)
    (d : GpuDevice) (occ_blocks_per_mp : Int) (fixed_block_size : Int) :
    Option GpuLaunchConfig :=
  if work_element_count ≤ 0 then none
  else
    let block_count :=
      min (occ_blocks_per_mp * d.numMultiProcessors)
        (DivUp work_element_count fixed_block_size)
    some { virtual_thread_count := work_element_count
           thread_per_block := fixed_block_size
           block_count := block_count }

/-- CUDA `dim3`: a triple of extents. -/
structure Dim3 where
  x : Int
  y : Int
  z : Int
deriving Repr, DecidableEq

/-- `struct Gpu2DLaunchConfig` (lines 241-245): every field defaults to
`dim3(0, 0, 0)`. -/
structure Gpu2DLaunchConfig where
  virtual_thread_count : Dim3 := ⟨0, 0, 0⟩
  thread_per_block : Dim3 := ⟨0, 0, 0⟩
  block_count : Dim3 := ⟨0, 0, 0⟩
deriving Repr, DecidableEq

/-- Heuristic `GetGpu2DLaunchConfig(int xdim, int ydim, d)`
(lines 247-278, CUDA branch).  Degenerate extents return the default
(all-zero) config before any device quantity is used. -/
def GetGpu2DLaunchConfig (xdim ydim : Int) (d : GpuDevice) :
    Gpu2DLaunchConfig :=
  if xdim ≤ 0 ∨ ydim ≤ 0 then {}
  else
    let kThreadsPerBlock : Int := 256
    let block_cols := min xdim kThreadsPerBlock
    let block_rows := max (kThreadsPerBlock.tdiv block_cols) 1
    let physical_thread_count :=
      d.numMultiProcessors * d.maxThreadsPerMultiProcessor
    let max_blocks := max (physical_thread_count.tdiv kThreadsPerBlock) 1
    let grid_x := min (DivUp xdim block_cols) max_blocks
    { virtual_thread_count := ⟨xdim, ydim, 1⟩
      thread_per_block := ⟨block_cols, block_rows, 1⟩
      block_count :=
        ⟨grid_x,
         min (max_blocks.tdiv grid_x) (max (ydim.tdiv block_rows) 1), 1⟩ }

/-- `using Gpu3DLaunchConfig = Gpu2DLaunchConfig;` (line 283). -/
def Gpu3DLaunchConfig := Gpu2DLaunchConfig

/-- The per-dimension limits the 3D path reads from `cudaDeviceProp`:
`maxThreadsDim[0..2]` and `maxGridSize[0..2]`. -/
structure DeviceProp where
  maxThreadsDim0 : Int
  maxThreadsDim1 : Int
  maxThreadsDim2 : Int
  maxGridSize0 : Int
  maxGridSize1 : Int
  maxGridSize2 : Int
deriving Repr, DecidableEq

/-- Occupancy-aware `GetGpu3DLaunchConfig(xdim, ydim, zdim, d, func,
dynamic_shared_memory_size, block_size_limit)` (lines 286-353, CUDA branch).
Degenerate extents return the all-zero config before the device-property and
occupancy queries.  `std::min({a, b, c})` is `min a (min b c)`. -/
def GetGpu3DLaunchConfig (xdim ydim zdim : Int) (prop : DeviceProp)
    (occ : OccupancyResult) : Gpu2DLaunchConfig :=
  if xdim ≤ 0 ∨ ydim ≤ 0 ∨ zdim ≤ 0 then {}
  else
    let thread_per_block := occ.thread_per_block
    let block_count := occ.block_count
    let threadsx := min xdim (min thread_per_block prop.maxThreadsDim0)
    let threadsy :=
      min ydim (min (max (thread_per_block.tdiv threadsx) 1)
        prop.maxThreadsDim1)
    let threadsz :=
      min zdim (min (max (thread_per_block.tdiv (threadsx * threadsy)) 1)
        prop.maxThreadsDim2)
    let blocksx :=
      min block_count (min (DivUp xdim threadsx) prop.maxGridSize0)
    let blocksy :=
      min (DivUp block_count blocksx)
        (min (DivUp ydim threadsy) prop.maxGridSize1)
    let blocksz :=
      min (DivUp block_count (blocksx * blocksy))
        (min (DivUp zdim threadsz) prop.maxGridSize2)
    { virtual_thread_count := ⟨xdim, ydim, zdim⟩
      thread_per_block := ⟨threadsx, threadsy, threadsz⟩
      block_count := ⟨blocksx, blocksy, blocksz⟩ }

/-- Occupancy-aware `GetGpu2DLaunchConfig(xdim, ydim, d, func,
dynamic_shared_memory_size, block_size_limit)` (lines 355-361): delegates to
the 3D function with `zdim = 1`. -/
def GetGpu2DLaunchConfigOcc (xdim ydim : Int) (prop : DeviceProp)
    (occ : OccupancyResult) : Gpu2DLaunchConfig :=
  GetGpu3DLaunchConfig xdim ydim 1 prop occ

/-- The divisor of the single division the heuristic 1D config performs:
`DivUp(physical_thread_count, thread_per_block)` divides by
`thread_per_block = min(1024, maxThreadsPerBlock)` (line 137). -/
def getGpuLaunchConfigDivisors (d : GpuDevice) : List Int :=
  [min 1024 d.maxThreadsPerBlock]

/-- The divisors of the divisions the 2D heuristic performs, in program
order: `kThreadsPerBlock / block_cols` (line 258),
`physical_thread_count / kThreadsPerBlock` (line 268),
`DivUp(xdim, block_cols)` (line 273), `max_blocks / grid_x` and
`ydim / block_rows` (line 276). -/
def getGpu2DLaunchConfigDivisors (xdim : Int) (d : GpuDevice) : List Int :=
  let kThreadsPerBlock : Int := 256
  let block_cols := min xdim kThreadsPerBlock
  let block_rows := max (kThreadsPerBlock.tdiv block_cols) 1
  let max_blocks :=
    max ((d.numMultiProcessors * d.maxThreadsPerMultiProcessor).tdiv
      kThreadsPerBlock) 1
  let grid_x := min (DivUp xdim block_cols) max_blocks
  [block_cols, kThreadsPerBlock, block_cols, grid_x, block_rows]

/-- The divisors of the divisions the 3D config performs, in program order:
`thread_per_block / threadsx` (line 338),
`thread_per_block / (threadsx * threadsy)` (line 340),
`DivUp(xdim, threadsx)` (line 343), `DivUp(block_count, blocksx)` and
`DivUp(ydim, threadsy)` (line 345), `DivUp(block_count, blocksx * blocksy)`
and `DivUp(zdim, threadsz)` (lines 346-347). -/
def getGpu3DLaunchConfigDivisors (xdim ydim zdim : Int) (prop : DeviceProp)
    (occ : OccupancyResult) : List Int :=
  let thread_per_block := occ.thread_per_block
  let block_count := occ.block_count
  let threadsx := min xdim (min thread_per_block prop.maxThreadsDim0)
  let threadsy :=
    min ydim (min (max (thread_per_block.tdiv threadsx) 1)
      prop.maxThreadsDim1)
  let threadsz :=
    min zdim (min (max (thread_per_block.tdiv (threadsx * threadsy)) 1)
      prop.maxThreadsDim2)
  let blocksx :=
    min block_count (min (DivUp xdim threadsx) prop.maxGridSize0)
  let blocksy :=
    min (DivUp block_count blocksx)
      (min (DivUp ydim threadsy) prop.maxGridSize1)
  [threadsx, threadsx * threadsy, threadsx, blocksx, threadsy,
   blocksx * blocksy, threadsz]

/-! ### Arithmetic helper lemmas -/

/-- Truncating division of positives: if `0 < b ≤ a` then `1 ≤ a.tdiv b`. -/
theorem one_le_tdiv {a b : Int} (hb : 0 < b) (hba : b ≤ a) : 1 ≤ a.tdiv b := by
  rw [Int.tdiv_eq_ediv (le_trans (le_of_lt hb) hba) (le_of_lt hb),
    Int.le_ediv_iff_mul_le hb]
  simpa using hba

/-- Truncating division never overshoots: `b * (a.tdiv b) ≤ a` for
nonnegative `a` and positive `b`. -/
theorem mul_tdiv_le {a b : Int} (ha : 0 ≤ a) (hb : 0 < b) :
    b * (a.tdiv b) ≤ a := by
  rw [Int.tdiv_eq_ediv ha (le_of_lt hb), Int.mul_comm]
  exact Int.ediv_mul_le a (Int.ne_of_gt hb)

/-- `DivUp` of positives is positive. -/
theorem DivUp_pos {a b : Int} (ha : 1 ≤ a) (hb : 1 ≤ b) : 1 ≤ DivUp a b := by
  unfold DivUp
  rw [Int.tdiv_eq_ediv (by omega) (by omega), Int.le_ediv_iff_mul_le (by omega)]
  omega

/-- Multiplying integers at least 1 stays at least 1. -/
theorem one_le_mul_int {a b : Int} (ha : 1 ≤ a) (hb : 1 ≤ b) : 1 ≤ a * b := by
  nlinarith

/-- `DivUp` covers: `a ≤ DivUp a b * b` for nonnegative `a`, positive `b`. -/
theorem le_DivUp_mul {a b : Int} (ha : 0 ≤ a) (hb : 0 < b) :
    a ≤ DivUp a b * b := by
  unfold DivUp
  rw [Int.tdiv_eq_ediv (by omega) (by omega), Int.mul_comm]
  have h2 := Int.ediv_add_emod (a + b - 1) b
  have h3 := Int.emod_lt_of_pos (a + b - 1) hb
  linarith

/-! ### Claim theorems -/

/-- C2: for every positive work count `n` and every occupancy result with
`block_count ≥ 1` and `thread_per_block ≥ 1`, the occupancy-aware 1D config
has `block_count ≤ DivUp n thread_per_block`, `thread_per_block` equal to
the occupancy-returned value, and `virtual_thread_count = n`. -/
theorem getGpuLaunchConfigOcc_clamped (n : Int) (occ : OccupancyResult)
    (hn : 0 < n) (hb : 1 ≤ occ.block_count) (ht : 1 ≤ occ.thread_per_block) :
    ∃ cfg, GetGpuLaunchConfigOcc n occ = some cfg ∧
      cfg.block_count ≤ DivUp n occ.thread_per_block ∧
      cfg.thread_per_block = occ.thread_per_block ∧
      cfg.virtual_thread_count = n := by
  unfold GetGpuLaunchConfigOcc
  rw [if_neg (by omega)]
  exact ⟨_, rfl, min_le_right _ _, rfl, rfl⟩

/-- Witness for C2 at `n = 100`, occupancy result `(13, 32)`. -/
theorem getGpuLaunchConfigOcc_clamped_witness :
    (0 < (100 : Int) ∧ 1 ≤ (13 : Int) ∧ 1 ≤ (32 : Int)) ∧
    ∃ cfg, GetGpuLaunchConfigOcc 100 ⟨13, 32⟩ = some cfg ∧
      cfg.block_count ≤ DivUp 100 32 ∧
      cfg.thread_per_block = 32 ∧
      cfg.virtual_thread_count = 100 :=
  ⟨by decide,
   getGpuLaunchConfigOcc_clamped 100 ⟨13, 32⟩ (by decide) (by decide)
     (by decide)⟩

/-- C4: for every positive `n`, every device with `numMultiProcessors ≥ 1`
and `maxThreadsPerBlock ≥ 1`, every occupancy answer and every positive
`fixed_block_size`, the fixed-block-size config has `thread_per_block`
equal to `fixed_block_size` and `block_count ≤ DivUp n fixed_block_size`. -/
theorem getGpuLaunchConfigFixedBlockSize_clamped (n : Int) (d : GpuDevice)
    (occ_blocks_per_mp fixed_block_size : Int) (hn : 0 < n)
    (hmp : 1 ≤ d.numMultiProcessors) (hmtpb : 1 ≤ d.maxThreadsPerBlock)
    (hf : 0 < fixed_block_size) :
    ∃ cfg, GetGpuLaunchConfigFixedBlockSize n d occ_blocks_per_mp
        fixed_block_size = some cfg ∧
      cfg.thread_per_block = fixed_block_size ∧
      cfg.block_count ≤ DivUp n fixed_block_size := by
  unfold GetGpuLaunchConfigFixedBlockSize
  rw [if_neg (by omega)]
  exact ⟨_, rfl, rfl, min_le_right _ _⟩

/-- Witness for C4 at `n = 1000`, device `(8, 2048, 1024)`, occupancy
answer `3` blocks per multiprocessor, `fixed_block_size = 128`. -/
theorem getGpuLaunchConfigFixedBlockSize_clamped_witness :
    (0 < (1000 : Int) ∧ 1 ≤ (8 : Int) ∧ 1 ≤ (1024 : Int) ∧
      0 < (128 : Int)) ∧
    ∃ cfg, GetGpuLaunchConfigFixedBlockSize 1000 ⟨8, 2048, 1024⟩ 3 128 =
        some cfg ∧
      cfg.thread_per_block = 128 ∧
      cfg.block_count ≤ DivUp 1000 128 :=
  ⟨by decide,
   getGpuLaunchConfigFixedBlockSize_clamped 1000 ⟨8, 2048, 1024⟩ 3 128
     (by decide) (by decide) (by decide) (by decide)⟩

/-- C8: the occupancy-aware 2D config is exactly the 3D config at
`zdim = 1`, for all arguments (the source delegates directly). -/
theorem getGpu2DLaunchConfigOcc_eq_3D (xdim ydim : Int) (prop : DeviceProp)
    (occ : OccupancyResult) :
    GetGpu2DLaunchConfigOcc xdim ydim prop occ =
      GetGpu3DLaunchConfig xdim ydim 1 prop occ := rfl

/-- C3: any zero-or-negative axis extent makes the 2D heuristic and the 3D
config return the all-zero configuration; the result does not depend on the
device, device-property or occupancy inputs (they are quantified and
unused). -/
theorem degenerate_all_zero (xdim ydim zdim : Int) (d : GpuDevice)
    (prop : DeviceProp) (occ : OccupancyResult) :
    (xdim ≤ 0 ∨ ydim ≤ 0 →
      GetGpu2DLaunchConfig xdim ydim d =
        { virtual_thread_count := ⟨0, 0, 0⟩
          thread_per_block := ⟨0, 0, 0⟩
          block_count := ⟨0, 0, 0⟩ }) ∧
    (xdim ≤ 0 ∨ ydim ≤ 0 ∨ zdim ≤ 0 →
      GetGpu3DLaunchConfig xdim ydim zdim prop occ =
        { virtual_thread_count := ⟨0, 0, 0⟩
          thread_per_block := ⟨0, 0, 0⟩
          block_count := ⟨0, 0, 0⟩ }) := by
  constructor
  · intro h
    unfold GetGpu2DLaunchConfig
    rw [if_pos h]
  · intro h
    unfold GetGpu3DLaunchConfig
    rw [if_pos h]

/-- Witness for C3 at `xdim = 0` (degenerate), `ydim = 5`, `zdim = 7`. -/
theorem degenerate_all_zero_witness :
    GetGpu2DLaunchConfig 0 5 ⟨20, 1024, 1024⟩ =
      { virtual_thread_count := ⟨0, 0, 0⟩
        thread_per_block := ⟨0, 0, 0⟩
        block_count := ⟨0, 0, 0⟩ } ∧
    GetGpu3DLaunchConfig 0 5 7 ⟨1024, 1024, 64, 65535, 65535, 65535⟩
        ⟨13, 1024⟩ =
      { virtual_thread_count := ⟨0, 0, 0⟩
        thread_per_block := ⟨0, 0, 0⟩
        block_count := ⟨0, 0, 0⟩ } :=
  ⟨(degenerate_all_zero 0 5 7 ⟨20, 1024, 1024⟩
      ⟨1024, 1024, 64, 65535, 65535, 65535⟩ ⟨13, 1024⟩).1 (Or.inl le_rfl),
   (degenerate_all_zero 0 5 7 ⟨20, 1024, 1024⟩
      ⟨1024, 1024, 64, 65535, 65535, 65535⟩ ⟨13, 1024⟩).2 (Or.inl le_rfl)⟩

/-- C5: for every positive `n` and every device with all three capability
numbers at least 1, the heuristic 1D config is `virtual_thread_count = n`,
`thread_per_block = min 1024 maxThreadsPerBlock`, and `block_count` equal
to `min (DivUp (min (mp * mtpm) n) thread_per_block) mp`; consequently
`1 ≤ block_count ≤ numMultiProcessors`. -/
theorem getGpuLaunchConfig_heuristic_spec (n : Int) (d : GpuDevice)
    (hn : 0 < n) (hmp : 1 ≤ d.numMultiProcessors)
    (hmtpm : 1 ≤ d.maxThreadsPerMultiProcessor)
    (hmtpb : 1 ≤ d.maxThreadsPerBlock) :
    ∃ bc, GetGpuLaunchConfig n d = some
        { virtual_thread_count := n
          thread_per_block := min 1024 d.maxThreadsPerBlock
          block_count := bc } ∧
      bc = min (DivUp
          (min (d.numMultiProcessors * d.maxThreadsPerMultiProcessor) n)
          (min 1024 d.maxThreadsPerBlock)) d.numMultiProcessors ∧
      1 ≤ bc ∧ bc ≤ d.numMultiProcessors := by
  unfold GetGpuLaunchConfig
  rw [if_neg (by omega)]
  refine ⟨_, rfl, rfl, ?_, min_le_right _ _⟩
  have h1 : (1 : Int) ≤ d.numMultiProcessors * d.maxThreadsPerMultiProcessor := by
    nlinarith
  exact le_min (DivUp_pos (le_min h1 hn) (le_min (by norm_num) hmtpb)) hmp

/-- Witness for C5 at `n = 10240`, device `(20, 1024, 1024)`:
`block_count = 10` there. -/
theorem getGpuLaunchConfig_heuristic_spec_witness :
    (0 < (10240 : Int) ∧ 1 ≤ (20 : Int) ∧ 1 ≤ (1024 : Int)) ∧
    ∃ bc, GetGpuLaunchConfig 10240 ⟨20, 1024, 1024⟩ = some
        { virtual_thread_count := 10240
          thread_per_block := min 1024 (1024 : Int)
          block_count := bc } ∧
      bc = min (DivUp (min ((20 : Int) * 1024) 10240) (min 1024 1024)) 20 ∧
      1 ≤ bc ∧ bc ≤ 20 :=
  ⟨by decide,
   getGpuLaunchConfig_heuristic_spec 10240 ⟨20, 1024, 1024⟩ (by decide)
     (by decide) (by decide) (by decide)⟩

/-- C6: for every positive `xdim`, `ydim` and every device, the 2D
heuristic returns exactly the source's formulas: `block_cols = min xdim
256`, `block_rows = max (256 / block_cols) 1`, `max_blocks =
max (mp * mtpm / 256) 1`, `grid_x = min (DivUp xdim block_cols)
max_blocks`, `grid_y = min (max_blocks / grid_x) (max (ydim / block_rows)
1)` (all divisions truncating). -/
theorem getGpu2DLaunchConfig_spec (xdim ydim : Int) (d : GpuDevice)
    (hx : 0 < xdim) (hy : 0 < ydim) :
    GetGpu2DLaunchConfig xdim ydim d =
      (let kThreadsPerBlock : Int := 256
       let block_cols := min xdim kThreadsPerBlock
       let block_rows := max (kThreadsPerBlock.tdiv block_cols) 1
       let max_blocks :=
         max ((d.numMultiProcessors * d.maxThreadsPerMultiProcessor).tdiv
           kThreadsPerBlock) 1
       let grid_x := min (DivUp xdim block_cols) max_blocks
       { virtual_thread_count := ⟨xdim, ydim, 1⟩
         thread_per_block := ⟨block_cols, block_rows, 1⟩
         block_count :=
           ⟨grid_x,
            min (max_blocks.tdiv grid_x) (max (ydim.tdiv block_rows) 1),
            1⟩ }) := by
  unfold GetGpu2DLaunchConfig
  rw [if_neg (by omega)]

/-- Witness for C6 at `(10240, 10240)` on a device with
`physical_thread_count = 20 * 1024 = 20480`: block `(256, 1, 1)`,
grid `(40, 2, 1)`, as the claim's worked example states. -/
theorem getGpu2DLaunchConfig_spec_witness :
    (0 < (10240 : Int)) ∧
    GetGpu2DLaunchConfig 10240 10240 ⟨20, 1024, 1024⟩ =
      { virtual_thread_count := ⟨10240, 10240, 1⟩
        thread_per_block := ⟨256, 1, 1⟩
        block_count := ⟨40, 2, 1⟩ } :=
  ⟨by decide,
   (getGpu2DLaunchConfig_spec 10240 10240 ⟨20, 1024, 1024⟩ (by decide)
     (by decide)).trans (by decide)⟩

/-- C7, counterexample to the claim as stated: at `n = 2048` on a device
with 1 multiprocessor, 2048 threads per multiprocessor and 1024 threads
per block, the heuristic returns `block_count = 1`, `thread_per_block =
1024`, so `block_count * thread_per_block = 1024` is strictly below
`physical_thread_count = min (1 * 2048) 2048 = 2048`. -/
theorem getGpuLaunchConfig_coverage_cex :
    GetGpuLaunchConfig 2048 ⟨1, 2048, 1024⟩ = some ⟨2048, 1024, 1⟩ ∧
    ¬ (min ((1 : Int) * 2048) 2048 ≤ (1 : Int) * 1024) := by decide

/-- C7, amended: the heuristic 1D config satisfies
`block_count * thread_per_block ≥
min physical_thread_count (numMultiProcessors * thread_per_block)`;
the extra cap appears because the multiprocessor-count clamp on
`block_count` can win against covering all physically resident threads. -/
theorem getGpuLaunchConfig_coverage (n : Int) (d : GpuDevice)
    (hn : 0 < n) (hmp : 1 ≤ d.numMultiProcessors)
    (hmtpm : 1 ≤ d.maxThreadsPerMultiProcessor)
    (hmtpb : 1 ≤ d.maxThreadsPerBlock) (cfg : GpuLaunchConfig)
    (hcfg : GetGpuLaunchConfig n d = some cfg) :
    min (min (d.numMultiProcessors * d.maxThreadsPerMultiProcessor) n)
        (d.numMultiProcessors * cfg.thread_per_block) ≤
      cfg.block_count * cfg.thread_per_block := by
  unfold GetGpuLaunchConfig at hcfg
  rw [if_neg (by omega)] at hcfg
  simp only [Option.some.injEq] at hcfg
  subst hcfg
  show min (min (d.numMultiProcessors * d.maxThreadsPerMultiProcessor) n)
      (d.numMultiProcessors * min 1024 d.maxThreadsPerBlock) ≤
    min (DivUp (min (d.numMultiProcessors * d.maxThreadsPerMultiProcessor) n)
        (min 1024 d.maxThreadsPerBlock)) d.numMultiProcessors *
      min 1024 d.maxThreadsPerBlock
  have h1 : (1 : Int) ≤ d.numMultiProcessors * d.maxThreadsPerMultiProcessor := by
    nlinarith
  have hptc1 : 1 ≤ min (d.numMultiProcessors * d.maxThreadsPerMultiProcessor) n :=
    le_min h1 hn
  have htpb1 : (1 : Int) ≤ min 1024 d.maxThreadsPerBlock :=
    le_min (by norm_num) hmtpb
  rcases le_total
      (DivUp (min (d.numMultiProcessors * d.maxThreadsPerMultiProcessor) n)
        (min 1024 d.maxThreadsPerBlock)) d.numMultiProcessors with h | h
  · rw [min_eq_left h]
    exact le_trans (min_le_left _ _) (le_DivUp_mul (by omega) (by omega))
  · rw [min_eq_right h]
    exact min_le_right _ _

/-- Witness for the amended C7 at `n = 10240`, device `(20, 1024, 1024)`:
the returned config is `(10240, 1024, 10)` and
`min (min 20480 10240) (20 * 1024) = 10240 ≤ 10 * 1024`. -/
theorem getGpuLaunchConfig_coverage_witness :
    (0 < (10240 : Int) ∧ 1 ≤ (20 : Int) ∧ 1 ≤ (1024 : Int) ∧
      GetGpuLaunchConfig 10240 ⟨20, 1024, 1024⟩ = some ⟨10240, 1024, 10⟩) ∧
    min (min ((20 : Int) * 1024) 10240) ((20 : Int) * 1024) ≤
      (10 : Int) * 1024 :=
  ⟨by decide,
   getGpuLaunchConfig_coverage 10240 ⟨20, 1024, 1024⟩ (by decide) (by decide)
     (by decide) (by decide) ⟨10240, 1024, 10⟩ (by decide)⟩

/-- C1: for positive extents, an occupancy result with both components at
least 1 and per-dimension limits at least 1, the 3D config distributes
threads then blocks greedily in x, y, z order exactly by the source's
formulas, and `virtual_thread_count` is the extents triple. -/
theorem getGpu3DLaunchConfig_spec (xdim ydim zdim : Int) (prop : DeviceProp)
    (occ : OccupancyResult) (hx : 0 < xdim) (hy : 0 < ydim) (hz : 0 < zdim)
    (hbc : 1 ≤ occ.block_count) (ht : 1 ≤ occ.thread_per_block)
    (hxtl : 1 ≤ prop.maxThreadsDim0) (hytl : 1 ≤ prop.maxThreadsDim1)
    (hztl : 1 ≤ prop.maxThreadsDim2) (hxgl : 1 ≤ prop.maxGridSize0)
    (hygl : 1 ≤ prop.maxGridSize1) (hzgl : 1 ≤ prop.maxGridSize2) :
    ∃ tx ty tz bx b2 bz : Int,
      tx = min xdim (min occ.thread_per_block prop.maxThreadsDim0) ∧
      ty = min ydim (min (max (occ.thread_per_block.tdiv tx) 1)
        prop.maxThreadsDim1) ∧
      tz = min zdim (min (max (occ.thread_per_block.tdiv (tx * ty)) 1)
        prop.maxThreadsDim2) ∧
      bx = min occ.block_count (min (DivUp xdim tx) prop.maxGridSize0) ∧
      b2 = min (DivUp occ.block_count bx)
        (min (DivUp ydim ty) prop.maxGridSize1) ∧
      bz = min (DivUp occ.block_count (bx * b2))
        (min (DivUp zdim tz) prop.maxGridSize2) ∧
      GetGpu3DLaunchConfig xdim ydim zdim prop occ =
        { virtual_thread_count := ⟨xdim, ydim, zdim⟩
          thread_per_block := ⟨tx, ty, tz⟩
          block_count := ⟨bx, b2, bz⟩ } := by
  refine ⟨_, _, _, _, _, _, rfl, rfl, rfl, rfl, rfl, rfl, ?_⟩
  unfold GetGpu3DLaunchConfig
  rw [if_neg (by omega)]

/-- Witness for C1 at extents `(4096, 4096, 100)`, occupancy result
`(13, 1024)`, thread limits `(1024, 1024, 64)` and grid limits `2^31 - 1`:
threads `(1024, 1, 1)` and blocks `(4, 4, 1)`. -/
theorem getGpu3DLaunchConfig_spec_witness :
    GetGpu3DLaunchConfig 4096 4096 100
        ⟨1024, 1024, 64, 2 ^ 31 - 1, 2 ^ 31 - 1, 2 ^ 31 - 1⟩ ⟨13, 1024⟩ =
      { virtual_thread_count := ⟨4096, 4096, 100⟩
        thread_per_block := ⟨1024, 1, 1⟩
        block_count := ⟨4, 4, 1⟩ } := by
  obtain ⟨tx, ty, tz, bx, b2, bz, htx, hty, htz, hbx, hb2, hbz, hres⟩ :=
    getGpu3DLaunchConfig_spec 4096 4096 100
      ⟨1024, 1024, 64, 2 ^ 31 - 1, 2 ^ 31 - 1, 2 ^ 31 - 1⟩ ⟨13, 1024⟩
      (by decide) (by decide) (by decide) (by decide) (by decide) (by decide)
      (by decide) (by decide) (by decide) (by decide) (by decide)
  subst htx; subst hty; subst htz; subst hbx; subst hb2; subst hbz
  rw [hres]
  decide

/-- C9: for positive extents, occupancy `thread_per_block ≥ 1` and thread
limits at least 1, each per-axis thread count of the 3D config is between
1 and that axis's extent, and their product never exceeds the
occupancy-chosen `thread_per_block`. -/
theorem getGpu3DLaunchConfig_threads_invariant (xdim ydim zdim : Int)
    (prop : DeviceProp) (occ : OccupancyResult)
    (hx : 0 < xdim) (hy : 0 < ydim) (hz : 0 < zdim)
    (ht : 1 ≤ occ.thread_per_block)
    (hxtl : 1 ≤ prop.maxThreadsDim0) (hytl : 1 ≤ prop.maxThreadsDim1)
    (hztl : 1 ≤ prop.maxThreadsDim2) :
    (1 ≤ (GetGpu3DLaunchConfig xdim ydim zdim prop occ).thread_per_block.x ∧
      (GetGpu3DLaunchConfig xdim ydim zdim prop occ).thread_per_block.x ≤
        xdim) ∧
    (1 ≤ (GetGpu3DLaunchConfig xdim ydim zdim prop occ).thread_per_block.y ∧
      (GetGpu3DLaunchConfig xdim ydim zdim prop occ).thread_per_block.y ≤
        ydim) ∧
    (1 ≤ (GetGpu3DLaunchConfig xdim ydim zdim prop occ).thread_per_block.z ∧
      (GetGpu3DLaunchConfig xdim ydim zdim prop occ).thread_per_block.z ≤
        zdim) ∧
    (GetGpu3DLaunchConfig xdim ydim zdim prop occ).thread_per_block.x *
        (GetGpu3DLaunchConfig xdim ydim zdim prop occ).thread_per_block.y *
        (GetGpu3DLaunchConfig xdim ydim zdim prop occ).thread_per_block.z ≤
      occ.thread_per_block := by
  set tpb := occ.thread_per_block with htpbdef
  set tx := min xdim (min tpb prop.maxThreadsDim0) with htxdef
  set ty := min ydim (min (max (tpb.tdiv tx) 1) prop.maxThreadsDim1)
    with htydef
  set tz := min zdim (min (max (tpb.tdiv (tx * ty)) 1) prop.maxThreadsDim2)
    with htzdef
  have hteq :
      (GetGpu3DLaunchConfig xdim ydim zdim prop occ).thread_per_block =
        ⟨tx, ty, tz⟩ := by
    unfold GetGpu3DLaunchConfig
    rw [if_neg (by omega)]
  rw [hteq]
  have h1tx : 1 ≤ tx := le_min (by omega) (le_min ht hxtl)
  have htx_le : tx ≤ tpb := le_trans (min_le_right _ _) (min_le_left _ _)
  have hq1 : 1 ≤ tpb.tdiv tx := one_le_tdiv (by omega) htx_le
  have h1ty : 1 ≤ ty := le_min (by omega) (le_min (le_max_right _ _) hytl)
  have hty_le : ty ≤ tpb.tdiv tx := by
    rw [htydef]
    exact le_trans (min_le_right _ _)
      (le_trans (min_le_left _ _) (le_of_eq (max_eq_left hq1)))
  have hxy_le : tx * ty ≤ tpb :=
    le_trans (mul_le_mul_of_nonneg_left hty_le (by omega))
      (mul_tdiv_le (by omega) (by omega))
  have h1xy : 1 ≤ tx * ty := by nlinarith
  have hq2 : 1 ≤ tpb.tdiv (tx * ty) := one_le_tdiv (by omega) hxy_le
  have h1tz : 1 ≤ tz := le_min (by omega) (le_min (le_max_right _ _) hztl)
  have htz_le : tz ≤ tpb.tdiv (tx * ty) := by
    rw [htzdef]
    exact le_trans (min_le_right _ _)
      (le_trans (min_le_left _ _) (le_of_eq (max_eq_left hq2)))
  refine ⟨⟨h1tx, min_le_left _ _⟩, ⟨h1ty, min_le_left _ _⟩,
    ⟨h1tz, min_le_left _ _⟩, ?_⟩
  show tx * ty * tz ≤ tpb
  calc tx * ty * tz ≤ tx * ty * (tpb.tdiv (tx * ty)) :=
        mul_le_mul_of_nonneg_left htz_le (by omega)
    _ ≤ tpb := mul_tdiv_le (by omega) (by omega)

/-- Witness for C9 at extents `(4096, 4096, 100)`, occupancy result
`(13, 1024)`, thread limits `(1024, 1024, 64)`. -/
theorem getGpu3DLaunchConfig_threads_invariant_witness :
    (1 ≤ (GetGpu3DLaunchConfig 4096 4096 100
        ⟨1024, 1024, 64, 65535, 65535, 65535⟩
        ⟨13, 1024⟩).thread_per_block.x ∧
      (GetGpu3DLaunchConfig 4096 4096 100 ⟨1024, 1024, 64, 65535, 65535,
        65535⟩ ⟨13, 1024⟩).thread_per_block.x ≤ 4096) ∧
    (1 ≤ (GetGpu3DLaunchConfig 4096 4096 100
        ⟨1024, 1024, 64, 65535, 65535, 65535⟩
        ⟨13, 1024⟩).thread_per_block.y ∧
      (GetGpu3DLaunchConfig 4096 4096 100 ⟨1024, 1024, 64, 65535, 65535,
        65535⟩ ⟨13, 1024⟩).thread_per_block.y ≤ 4096) ∧
    (1 ≤ (GetGpu3DLaunchConfig 4096 4096 100
        ⟨1024, 1024, 64, 65535, 65535, 65535⟩
        ⟨13, 1024⟩).thread_per_block.z ∧
      (GetGpu3DLaunchConfig 4096 4096 100 ⟨1024, 1024, 64, 65535, 65535,
        65535⟩ ⟨13, 1024⟩).thread_per_block.z ≤ 100) ∧
    (GetGpu3DLaunchConfig 4096 4096 100 ⟨1024, 1024, 64, 65535, 65535,
        65535⟩ ⟨13, 1024⟩).thread_per_block.x *
      (GetGpu3DLaunchConfig 4096 4096 100 ⟨1024, 1024, 64, 65535, 65535,
        65535⟩ ⟨13, 1024⟩).thread_per_block.y *
      (GetGpu3DLaunchConfig 4096 4096 100 ⟨1024, 1024, 64, 65535, 65535,
        65535⟩ ⟨13, 1024⟩).thread_per_block.z ≤ 1024 :=
  getGpu3DLaunchConfig_threads_invariant 4096 4096 100
    ⟨1024, 1024, 64, 65535, 65535, 65535⟩ ⟨13, 1024⟩ (by decide) (by decide)
    (by decide) (by decide) (by decide) (by decide) (by decide)

/-- C10: under the claims' preconditions, every division the 1D heuristic,
the 2D heuristic and the 3D distribution perform has a strictly positive
divisor (the three divisor lists enumerate those divisors in program
order), so the division-by-zero branch of C++ `/` is unreachable. -/
theorem divisionDivisors_pos (n xdim ydim zdim : Int) (d : GpuDevice)
    (prop : DeviceProp) (occ : OccupancyResult)
    (hn : 0 < n) (hmp : 1 ≤ d.numMultiProcessors)
    (hmtpm : 1 ≤ d.maxThreadsPerMultiProcessor)
    (hmtpb : 1 ≤ d.maxThreadsPerBlock)
    (hx : 0 < xdim) (hy : 0 < ydim) (hz : 0 < zdim)
    (hbc : 1 ≤ occ.block_count) (ht : 1 ≤ occ.thread_per_block)
    (hxtl : 1 ≤ prop.maxThreadsDim0) (hytl : 1 ≤ prop.maxThreadsDim1)
    (hztl : 1 ≤ prop.maxThreadsDim2) (hxgl : 1 ≤ prop.maxGridSize0)
    (hygl : 1 ≤ prop.maxGridSize1) (hzgl : 1 ≤ prop.maxGridSize2) :
    (∀ q ∈ getGpuLaunchConfigDivisors d, 0 < q) ∧
    (∀ q ∈ getGpu2DLaunchConfigDivisors xdim d, 0 < q) ∧
    (∀ q ∈ getGpu3DLaunchConfigDivisors xdim ydim zdim prop occ, 0 < q) := by
  refine ⟨?_, ?_, ?_⟩
  · intro q hq
    simp only [getGpuLaunchConfigDivisors, List.mem_singleton] at hq
    subst hq
    omega
  · intro q hq
    simp only [getGpu2DLaunchConfigDivisors, List.mem_cons,
      List.not_mem_nil, or_false] at hq
    set bcols := min xdim (256 : Int) with hbcols
    set brows := max ((256 : Int).tdiv bcols) 1 with hbrows
    set mblocks :=
      max ((d.numMultiProcessors * d.maxThreadsPerMultiProcessor).tdiv 256) 1
      with hmblocks
    set gx := min (DivUp xdim bcols) mblocks with hgx
    clear_value bcols brows mblocks gx
    have h1 : 1 ≤ bcols := by
      rw [hbcols]; exact le_min (by omega) (by norm_num)
    have h2 : 1 ≤ DivUp xdim bcols := DivUp_pos (by omega) h1
    have hm1 : 1 ≤ mblocks := by rw [hmblocks]; exact le_max_right _ _
    have h3 : 1 ≤ gx := by rw [hgx]; exact le_min h2 hm1
    have hbr1 : 1 ≤ brows := by rw [hbrows]; exact le_max_right _ _
    rcases hq with rfl | rfl | rfl | rfl | rfl
    · exact lt_of_lt_of_le zero_lt_one h1
    · norm_num
    · exact lt_of_lt_of_le zero_lt_one h1
    · exact lt_of_lt_of_le zero_lt_one h3
    · exact lt_of_lt_of_le zero_lt_one hbr1
  · intro q hq
    simp only [getGpu3DLaunchConfigDivisors, List.mem_cons,
      List.not_mem_nil, or_false] at hq
    set tpb := occ.thread_per_block with htpb0
    set bc := occ.block_count with hbc0
    set tx := min xdim (min tpb prop.maxThreadsDim0) with htx0
    set ty := min ydim (min (max (tpb.tdiv tx) 1) prop.maxThreadsDim1)
      with hty0
    set tz := min zdim (min (max (tpb.tdiv (tx * ty)) 1) prop.maxThreadsDim2)
      with htz0
    set bx := min bc (min (DivUp xdim tx) prop.maxGridSize0) with hbx0
    set b2 := min (DivUp bc bx) (min (DivUp ydim ty) prop.maxGridSize1)
      with hb20
    clear_value tpb bc tx ty tz bx b2
    have h1tx : 1 ≤ tx := by
      rw [htx0]; exact le_min (by omega) (le_min ht hxtl)
    have h1ty : 1 ≤ ty := by
      rw [hty0]; exact le_min (by omega) (le_min (le_max_right _ _) hytl)
    have h1tz : 1 ≤ tz := by
      rw [htz0]; exact le_min (by omega) (le_min (le_max_right _ _) hztl)
    have h1xy : 1 ≤ tx * ty := one_le_mul_int h1tx h1ty
    have hdx : 1 ≤ DivUp xdim tx := DivUp_pos (by omega) h1tx
    have hdy : 1 ≤ DivUp ydim ty := DivUp_pos (by omega) h1ty
    have h1bx : 1 ≤ bx := by
      rw [hbx0]; exact le_min hbc (le_min hdx hxgl)
    have hdbc : 1 ≤ DivUp bc bx := DivUp_pos hbc h1bx
    have h1b2 : 1 ≤ b2 := by
      rw [hb20]; exact le_min hdbc (le_min hdy hygl)
    have h1bxb2 : 1 ≤ bx * b2 := one_le_mul_int h1bx h1b2
    rcases hq with rfl | rfl | rfl | rfl | rfl | rfl | rfl
    · exact lt_of_lt_of_le zero_lt_one h1tx
    · exact lt_of_lt_of_le zero_lt_one h1xy
    · exact lt_of_lt_of_le zero_lt_one h1tx
    · exact lt_of_lt_of_le zero_lt_one h1bx
    · exact lt_of_lt_of_le zero_lt_one h1ty
    · exact lt_of_lt_of_le zero_lt_one h1bxb2
    · exact lt_of_lt_of_le zero_lt_one h1tz

/-- Witness for C10: the 1D divisor list on device `(20, 1024, 1024)`, the
2D list at `xdim = 4096`, and the 3D list at extents `(4096, 4096, 100)`
with occupancy result `(13, 1024)` and limits `(1024, 1024, 64)` /
`65535`. -/
theorem divisionDivisors_pos_witness :
    (∀ q ∈ getGpuLaunchConfigDivisors ⟨20, 1024, 1024⟩, 0 < q) ∧
    (∀ q ∈ getGpu2DLaunchConfigDivisors 4096 ⟨20, 1024, 1024⟩, 0 < q) ∧
    (∀ q ∈ getGpu3DLaunchConfigDivisors 4096 4096 100
        ⟨1024, 1024, 64, 65535, 65535, 65535⟩ ⟨13, 1024⟩, 0 < q) :=
  divisionDivisors_pos 10240 4096 4096 100 ⟨20, 1024, 1024⟩
    ⟨1024, 1024, 64, 65535, 65535, 65535⟩ ⟨13, 1024⟩ (by decide) (by decide)
    (by decide) (by decide) (by decide) (by decide) (by decide) (by decide)
    (by decide) (by decide) (by decide) (by decide) (by decide) (by decide)
    (by decide)

end GpuLaunch
